import Mathlib

/-!
Shallow embedding of the style layer of `src/styles.rs` (the style registry,
the component type system, the dimension/range model, and the perceptual
color-scheme generator), together with theorems settling the frozen claims
about it.

Machine floating-point values (`f32`) are modelled as rational numbers, and
external leaf types from sibling crates/modules (`ZeroToOne`, `OklabHue`
normalization, `kludgine::Color`, font types) are modelled from the spec, as
noted on each definition.
-/

namespace Cushy

/-! ## Dimension and DimensionRange (src/styles.rs lines 481-758) -/

/-- Dimension: tagged union of physical pixels (`Px`, an `i32` wrapper) and
logical pixels (`Lp`, an `i32` wrapper).  The wrapped machine integers are
modelled as `Int`. -/
inductive Dimension where
  | px (value : Int)
  | lp (value : Int)
deriving DecidableEq, Repr

/-- Bound of a range, mirroring `std::ops::Bound<Dimension>`. -/
inductive DBound where
  | unbounded
  | included (d : Dimension)
  | excluded (d : Dimension)
deriving DecidableEq, Repr

/-- DimensionRange: a start and end `Bound<Dimension>`. -/
structure DimensionRange where
  start : DBound
  stop : DBound
deriving DecidableEq, Repr

/-- Embeds `DimensionRange::exact_dimension` (lines 615-620): matches only
`(Bound::Excluded(start), Bound::Included(end))` with `start == end`. -/
def DimensionRange.exact_dimension (r : DimensionRange) : Option Dimension :=
  match r.start, r.stop with
  | DBound.excluded s, DBound.included e => if s = e then some s else none
  | _, _ => none

/-- Embeds `impl From<RangeInclusive<T>> for DimensionRange` (lines 689-699):
`start..=end` becomes `Included(start)..Included(end)`. -/
def DimensionRange.fromRangeInclusive (s e : Dimension) : DimensionRange :=
  { start := DBound.included s, stop := DBound.included e }

/-- Embeds `impl From<T> for DimensionRange` for a single dimension value
(lines 658-666): `Self::from(dimension..=dimension)`. -/
def DimensionRange.fromSingle (d : Dimension) : DimensionRange :=
  DimensionRange.fromRangeInclusive d d

/-- Embeds `DimensionRange::minimum` (lines 637-644). -/
def DimensionRange.minimum (r : DimensionRange) : Option Dimension :=
  match r.start with
  | DBound.unbounded => none
  | DBound.excluded (Dimension.lp v) => some (Dimension.lp (v + 1))
  | DBound.excluded (Dimension.px v) => some (Dimension.px (v + 1))
  | DBound.included d => some d

/-- Embeds `DimensionRange::maximum` (lines 648-655). -/
def DimensionRange.maximum (r : DimensionRange) : Option Dimension :=
  match r.stop with
  | DBound.unbounded => none
  | DBound.excluded (Dimension.lp v) => some (Dimension.lp (v - 1))
  | DBound.excluded (Dimension.px v) => some (Dimension.px (v - 1))
  | DBound.included d => some d

/-! ## Component payload types (src/styles.rs lines 203-441, 1582-1805) -/

/-- Modelled from the spec: `kludgine::Color` is an sRGB color value with an
alpha channel; its `f32` channel accessors are modelled as rational
projections. -/
structure Color where
  red : ℚ
  green : ℚ
  blue : ℚ
  alpha : ℚ
deriving DecidableEq, Repr

/-- Modelled from the spec: `EasingFunction` is an opaque easing value for
animations; only its identity matters to the claims, so it is modelled as a
tagged token. -/
structure EasingFunction where
  tag : Nat
deriving DecidableEq, Repr

/-- HorizontalOrder (lines 1644-1650). -/
inductive HorizontalOrder where
  | leftToRight
  | rightToLeft
deriving DecidableEq, Repr

/-- VerticalOrder (lines 1671-1677). -/
inductive VerticalOrder where
  | topToBottom
  | bottomToTop
deriving DecidableEq, Repr

/-- VisualOrder (lines 1583-1589). -/
structure VisualOrder where
  horizontal : HorizontalOrder
  vertical : VerticalOrder
deriving DecidableEq, Repr

/-- FocusableWidgets (lines 1706-1713). -/
inductive FocusableWidgets where
  | all
  | onlyTextual
deriving DecidableEq, Repr

/-- ContainerLevel (lines 1754-1767). -/
inductive ContainerLevel where
  | lowest
  | low
  | mid
  | high
  | highest
deriving DecidableEq, Repr

/-- Modelled from the spec: `cosmic_text::FamilyOwned`, an owned font-family
name (opaque string-like value). -/
structure FamilyOwned where
  family : String
deriving DecidableEq, Repr

/-- Modelled from the spec: `cosmic_text::Weight`, a numeric font weight. -/
structure Weight where
  value : Nat
deriving DecidableEq, Repr

/-- Modelled from the spec: `cosmic_text::Style`, the style of a font. -/
inductive FontStyle where
  | normal
  | italic
  | oblique
deriving DecidableEq, Repr

/-- CustomComponent (lines 760-788): a shared, immutable, type-erased
payload.  The erased payload is modelled as a tagged token carrying its own
invalidation classification, which is all the claims observe. -/
structure CustomComponent where
  tag : Nat
  invalidates : Bool
deriving DecidableEq, Repr

/-- Component (lines 203-232): the closed tagged union of built-in style
value kinds plus the open `Custom` slot. -/
inductive Component where
  | color (c : Color)
  | dimension (d : Dimension)
  | dimensionRange (r : DimensionRange)
  | percent (p : ℚ)
  | easing (e : EasingFunction)
  | visualOrder (o : VisualOrder)
  | focusableWidgets (f : FocusableWidgets)
  | containerLevel (l : ContainerLevel)
  | fontFamily (f : FamilyOwned)
  | fontWeight (w : Weight)
  | fontStyle (s : FontStyle)
  | custom (c : CustomComponent)
deriving DecidableEq, Repr

/-! ### Variant-checked projections (the `TryFrom<Component>` impls).
Each mirrors the source pattern: the matching variant yields `Ok`, any
other component is returned unchanged as the error value. -/

/-- Embeds `impl TryFrom<Component> for Color` (lines 321-330). -/
def Color.try_from (c : Component) : Except Component Color :=
  match c with
  | Component.color v => Except.ok v
  | other => Except.error other

/-- Embeds `impl TryFrom<Component> for Dimension` (lines 344-353). -/
def Dimension.try_from (c : Component) : Except Component Dimension :=
  match c with
  | Component.dimension v => Except.ok v
  | other => Except.error other

/-- Embeds `impl TryFrom<Component> for Px` (lines 367-376): only the
`Dimension::Px` sub-variant converts. -/
def Px.try_from (c : Component) : Except Component Int :=
  match c with
  | Component.dimension (Dimension.px v) => Except.ok v
  | other => Except.error other

/-- Embeds `impl From<Px> for Component` (lines 361-365). -/
def Px.into_component (v : Int) : Component :=
  Component.dimension (Dimension.px v)

/-- Embeds `impl TryFrom<Component> for Lp` (lines 390-399): only the
`Dimension::Lp` sub-variant converts. -/
def Lp.try_from (c : Component) : Except Component Int :=
  match c with
  | Component.dimension (Dimension.lp v) => Except.ok v
  | other => Except.error other

/-- Embeds `impl From<Lp> for Component` (lines 384-388). -/
def Lp.into_component (v : Int) : Component :=
  Component.dimension (Dimension.lp v)

/-- Embeds `impl TryFrom<Component> for DimensionRange` (lines 743-752). -/
def DimensionRange.try_from (c : Component) : Except Component DimensionRange :=
  match c with
  | Component.dimensionRange v => Except.ok v
  | other => Except.error other

/-- Modelled from the spec: the `Percent` kind's variant-checked projection
(the conversion impls for `ZeroToOne` live outside src/styles.rs; the spec
requires a total injection and a mismatch-preserving projection). -/
def Percent.try_from (c : Component) : Except Component ℚ :=
  match c with
  | Component.percent v => Except.ok v
  | other => Except.error other

/-- Modelled from the spec: the `Easing` kind's variant-checked projection
(the conversion impls for `EasingFunction` live outside src/styles.rs). -/
def EasingFunction.try_from (c : Component) : Except Component EasingFunction :=
  match c with
  | Component.easing v => Except.ok v
  | other => Except.error other

/-- Embeds `impl TryFrom<Component> for VisualOrder` (lines 1626-1635). -/
def VisualOrder.try_from (c : Component) : Except Component VisualOrder :=
  match c with
  | Component.visualOrder v => Except.ok v
  | other => Except.error other

/-- Embeds `impl TryFrom<Component> for FocusableWidgets` (lines 1735-1744). -/
def FocusableWidgets.try_from (c : Component) : Except Component FocusableWidgets :=
  match c with
  | Component.focusableWidgets v => Except.ok v
  | other => Except.error other

/-- Embeds `impl TryFrom<Component> for ContainerLevel` (lines 1790-1799). -/
def ContainerLevel.try_from (c : Component) : Except Component ContainerLevel :=
  match c with
  | Component.containerLevel v => Except.ok v
  | other => Except.error other

/-- Embeds `impl TryFrom<Component> for FamilyOwned` (lines 252-261). -/
def FamilyOwned.try_from (c : Component) : Except Component FamilyOwned :=
  match c with
  | Component.fontFamily v => Except.ok v
  | other => Except.error other

/-- Embeds `impl TryFrom<Component> for Weight` (lines 275-284). -/
def Weight.try_from (c : Component) : Except Component Weight :=
  match c with
  | Component.fontWeight v => Except.ok v
  | other => Except.error other

/-- Embeds `impl TryFrom<Component> for Style` (lines 298-307). -/
def FontStyle.try_from (c : Component) : Except Component FontStyle :=
  match c with
  | Component.fontStyle v => Except.ok v
  | other => Except.error other

/-! ## Style registry (src/styles.rs lines 31-178, 816-904) -/

/-- Name (crate::names::Name): treated as an opaque string-like identifier
per the spec, modelled as `String`. -/
abbrev Name := String

/-- ComponentName (lines 817-823): a `(group, name)` pair with value
equality. -/
structure ComponentName where
  group : Name
  name : Name
deriving DecidableEq, Repr

/-- Modelled from the spec: the reactive value cell
`Constant(T) | Dynamic(subscribable cell)` from crate::value.  A dynamic
cell is modelled by its current snapshot; `get` is the O(1) snapshot
read. -/
inductive Value (α : Type) where
  | constant (v : α)
  | dynamic (v : α)
deriving DecidableEq, Repr

/-- Modelled from the spec: `Value::get` returns the current snapshot. -/
def Value.get : Value α → α
  | Value.constant v => v
  | Value.dynamic v => v

/-- Subscription side effects that `Styles::get` can register against the
resolution context (spec section 6: `invalidate_when_changed` and
`redraw_when_changed`). -/
inductive StyleEvent where
  | invalidateWhenChanged
  | redrawWhenChanged
deriving DecidableEq, Repr

/-- Modelled from the spec: registering an invalidate-on-change subscription
applies to dynamic cells; a constant has no change notification to
subscribe to. -/
def Value.invalidate_when_changed : Value α → List StyleEvent
  | Value.constant _ => []
  | Value.dynamic _ => [StyleEvent.invalidateWhenChanged]

/-- Modelled from the spec: registering a redraw-on-change subscription
applies to dynamic cells. -/
def Value.redraw_when_changed : Value α → List StyleEvent
  | Value.constant _ => []
  | Value.dynamic _ => [StyleEvent.redrawWhenChanged]

/-- Styles (line 33): the mapping from `ComponentName` to stored
`Value<Component>`.  The hash map is modelled as an association list where
the most recent insertion for a name shadows earlier ones, which matches
the map's observable lookup behavior; the copy-on-write `Arc` sharing is
below this pure-value abstraction (cloning a value in the embedding is the
O(1) clone of the handle). -/
abbrev Styles := List (ComponentName × Value Component)

/-- Embeds `Styles::new` (lines 38-40): the empty collection. -/
def Styles.new : Styles := []

/-- Embeds `Styles::insert_named` (lines 50-52): stores `component` under
`name`, overwriting any previous entry for that name (hash-map insert). -/
def Styles.insert_named (s : Styles) (name : ComponentName) (component : Value Component) :
    Styles :=
  (name, component) :: s

/-- Embeds `Styles::insert` (lines 55-58) for a plain `Component` argument:
`IntoComponentValue` wraps it as `Value::Constant` (lines 129-136). -/
def Styles.insert (s : Styles) (name : ComponentName) (component : Component) : Styles :=
  Styles.insert_named s name (Value.constant component)

/-- Embeds `Styles::get_named` (lines 76-82): map lookup by name. -/
def Styles.get_named : Styles → ComponentName → Option (Value Component)
  | [], _ => none
  | (k, v) :: rest, n => if k = n then some v else Styles.get_named rest n

/-- ComponentDefinition and ComponentType (lines 849-889) bundled as one
record: a qualified name, the variant-checked conversion from the erased
component, the invalidation classification of a converted value, and the
context-dependent default.  `Ctx` stands for `WidgetContext`. -/
structure ComponentDefinition (Ctx : Type) (α : Type) where
  name : ComponentName
  try_from_component : Component → Except Component α
  requires_invalidation : α → Bool
  default_value : Ctx → α

/-- Embeds `Styles::get` (lines 87-112): looks up the name; on a hit whose
stored snapshot converts, returns the converted value and registers the
subscription classified by `requires_invalidation`; on a miss or failed
conversion falls back to `default_value` with no subscription.  The
subscriptions are returned as an explicit event list. -/
def Styles.get (s : Styles) (component : ComponentDefinition Ctx α) (context : Ctx) :
    α × List StyleEvent :=
  match Styles.get_named s component.name with
  | some stored =>
    match component.try_from_component stored.get with
    | Except.ok value =>
      if component.requires_invalidation value then
        (value, stored.invalidate_when_changed)
      else
        (value, stored.redraw_when_changed)
    | Except.error _ => (component.default_value context, [])
  | none => (component.default_value context, [])

/-- Concrete typed style-property definition used to instantiate fallback
behavior at a specific input: a color-valued property with a fixed opaque
black default and no relayout requirement. -/
def exampleColorDefinition : ComponentDefinition Unit Color where
  name := { group := "global", name := "color" }
  try_from_component := Color.try_from
  requires_invalidation := fun _ => false
  default_value := fun _ => { red := 0, green := 0, blue := 0, alpha := 1 }

/-! ## Perceptual color model (src/styles.rs lines 1380-1580) -/

/-- Modelled from the spec: `ZeroToOne::new` clamps an `f32` into the unit
interval (spec: a percentage between 0.0 and 1.0). -/
def clamp01 (x : ℚ) : ℚ := max 0 (min 1 x)

/-- Modelled from the spec: `ZeroToOne::difference_between`, the absolute
difference of two unit-interval values. -/
def difference_between (a b : ℚ) : ℚ := |a - b|

/-- Modelled from the spec: `ZeroToOne::one_minus`, the distance of a
unit-interval value from one. -/
def one_minus (a : ℚ) : ℚ := 1 - a

/-- Modelled from the spec: `OklabHue::into_positive_degrees` returns the
hue angle normalized into `[0, 360)` degrees. -/
def into_positive_degrees (x : ℚ) : ℚ := x - 360 * ⌊x / 360⌋

/-- Modelled from the spec: `OklabHue::into_degrees` returns the hue angle
normalized into `[-180, 180)` degrees. -/
def into_degrees (x : ℚ) : ℚ := x - 360 * ⌊(x + 180) / 360⌋

/-- Modelled from the spec: `f32::signum`, which is `1.0` for zero or
positive values and `-1.0` for negative values. -/
def signum_f32 (x : ℚ) : ℚ := if x < 0 then -1 else 1

/-- ColorSource (lines 1385-1400): a hue angle in degrees and a saturation
in the unit interval.  The hue is stored raw; the external hue type
normalizes on demand. -/
structure ColorSource where
  hue : ℚ
  saturation : ℚ
deriving DecidableEq, Repr

/-- Embeds `ColorSource::new` (lines 1406-1411). -/
def ColorSource.new (hue saturation : ℚ) : ColorSource :=
  { hue := hue, saturation := saturation }

/-- Embeds `ColorSource::contrast_between` (lines 1426-1447): the
saturation difference, the shortest-arc hue distance divided by 180 and
wrapped in `ZeroToOne::new`, combined as
`saturation_delta.one_minus() * hue_delta`. -/
def ColorSource.contrast_between (a b : ColorSource) : ℚ :=
  let saturation_delta := difference_between a.saturation b.saturation
  let self_hue := into_positive_degrees a.hue
  let other_hue := into_positive_degrees b.hue
  let hue_delta := clamp01
    ((if self_hue < other_hue then
        min (other_hue - self_hue) (self_hue + 360 - other_hue)
      else
        min (self_hue - other_hue) (other_hue + 360 - self_hue)) / 180)
  one_minus saturation_delta * hue_delta

/-- Follows the claim's words rather than the source, for comparison with
the embedded `ColorSource.contrast_between`: the average of the absolute
saturation difference and the shortest-arc circular hue distance
normalized to `[0, 1]`. -/
def spec_contrast_between (a b : ColorSource) : ℚ :=
  let saturation_delta := difference_between a.saturation b.saturation
  let self_hue := into_positive_degrees a.hue
  let other_hue := into_positive_degrees b.hue
  let hue_delta :=
    (if self_hue < other_hue then
        min (other_hue - self_hue) (self_hue + 360 - other_hue)
      else
        min (self_hue - other_hue) (other_hue + 360 - self_hue)) / 180
  (saturation_delta + hue_delta) / 2

/-- Modelled from the spec: `palette::Srgb`, a red/green/blue triple of
`f32` channels produced by the external Okhsl-to-sRGB conversion. -/
structure Srgb where
  red : ℚ
  green : ℚ
  blue : ℚ
deriving DecidableEq, Repr

/-- Modelled from the spec: `Color::new_f32(red, green, blue, alpha)`
constructs a color from `f32` channels given in that argument order. -/
def Color.new_f32 (red green blue alpha : ℚ) : Color :=
  { red := red, green := green, blue := blue, alpha := alpha }

/-- Embeds the channel wiring of `ColorSource::color` (lines 1413-1419).
The hue/saturation/lightness-to-sRGB conversion performed by the external
palette crate is abstracted as the parameter `okhsl_to_srgb`; the source
then constructs the color as
`Color::new_f32(rgb.red, rgb.blue, rgb.green, 1.0)`. -/
def ColorSource.color_channels (okhsl_to_srgb : ColorSource → ℚ → Srgb)
    (source : ColorSource) (lightness : ℚ) : Color :=
  let rgb := okhsl_to_srgb source lightness
  Color.new_f32 rgb.red rgb.blue rgb.green 1

/-- Embeds the channel reading of `Color::into_source_and_lightness`
(lines 1522-1532): the inverse conversion reads the color back as
`Srgb::new(self.red_f32(), self.green_f32(), self.blue_f32())` before
handing it to the external sRGB-to-Okhsl conversion. -/
def Color.srgb_read_back (c : Color) : Srgb :=
  { red := c.red, green := c.green, blue := c.blue }

/-- Embeds the selection loop of `Color::most_contrasting`
(lines 1558-1579).  The per-candidate contrast amount
(`other.contrast_between(check_source, check_lightness, check_alpha)`,
whose numeric value routes through the external palette crate) is
abstracted as the function parameter `contrast`; the loop keeps the
current maximum and replaces it only under strict greater-than
comparison. -/
def most_contrasting_loop (contrast : Color → ℚ) :
    Color → ℚ → List Color → Color
  | best, _, [] => best
  | best, best_amount, other :: rest =>
    if contrast other > best_amount then
      most_contrasting_loop contrast other (contrast other) rest
    else
      most_contrasting_loop contrast best best_amount rest

/-- Embeds `Color::most_contrasting` (lines 1558-1579): the first candidate
seeds the running maximum; the `expect("at least one comparison")` panic on
an empty slice is modelled as `none`. -/
def Color.most_contrasting (contrast : Color → ℚ) (others : List Color) :
    Option Color :=
  match others with
  | [] => none
  | first :: rest => some (most_contrasting_loop contrast first (contrast first) rest)

/-! ## Color scheme builder (src/styles.rs lines 1807-2057) -/

/-- ColorScheme (lines 2023-2037): six color sources, always fully
populated. -/
structure ColorScheme where
  primary : ColorSource
  secondary : ColorSource
  tertiary : ColorSource
  error : ColorSource
  neutral : ColorSource
  neutral_variant : ColorSource
deriving DecidableEq, Repr

/-- ProtoColor (lines 1960-2020) reified as data: every implementor of the
trait exposes a hue and an optional saturation (`f32` and `OklabHue` expose
none; `ColorSource` and `(hue, saturation)` pairs expose their own). -/
structure ProtoColor where
  hue : ℚ
  saturation : Option ℚ
deriving DecidableEq, Repr

/-- Embeds `ProtoColor::into_source` (lines 1970-1975). -/
def ProtoColor.into_source (p : ProtoColor) (saturation_if_not_provided : ℚ) :
    ColorSource :=
  ColorSource.new p.hue (p.saturation.getD saturation_if_not_provided)

/-- ColorSchemeBuilder (lines 1809-1828). -/
structure ColorSchemeBuilder where
  primary : ColorSource
  secondary : Option ColorSource
  tertiary : Option ColorSource
  error : Option ColorSource
  neutral : Option ColorSource
  neutral_variant : Option ColorSource
  hue_shift : ℚ
deriving DecidableEq, Repr

/-- Embeds `ColorSchemeBuilder::new` (lines 1833-1843): the fallback
saturation for the primary proto color is `ZeroToOne::new(0.8)` and the
default hue shift is 30 degrees. -/
def ColorSchemeBuilder.new (primary : ProtoColor) : ColorSchemeBuilder where
  primary := primary.into_source (clamp01 (4/5))
  secondary := none
  tertiary := none
  error := none
  neutral := none
  neutral_variant := none
  hue_shift := 30

/-- Embeds `ColorSchemeBuilder::generate_secondary` (lines 1845-1850). -/
def ColorSchemeBuilder.generate_secondary (b : ColorSchemeBuilder) : ColorSource :=
  { hue := b.primary.hue + b.hue_shift, saturation := b.primary.saturation / 2 }

/-- Embeds `ColorSchemeBuilder::generate_tertiary` (lines 1852-1859): the
hue shift is applied with the sign of the secondary's shift away from
primary. -/
def ColorSchemeBuilder.generate_tertiary (b : ColorSchemeBuilder)
    (secondary : ColorSource) : ColorSource :=
  let hue_shift := signum_f32 (into_degrees (secondary.hue - b.primary.hue)) *
    into_degrees b.hue_shift
  { hue := b.primary.hue - hue_shift, saturation := b.primary.saturation / 3 }

/-- Embeds the retry loop of `ColorSchemeBuilder::generate_error`
(lines 1863-1868).  The source's unbounded `while` loop is modelled with an
explicit fuel parameter; `none` means the loop has not exited within `fuel`
iterations, and each iteration subtracts the hue shift from the error
hue. -/
def generate_error_loop (primary secondary tertiary : ColorSource)
    (hue_shift : ℚ) : Nat → ColorSource → Option ColorSource
  | 0, _ => none
  | fuel + 1, error =>
    if primary.contrast_between error < 1/10 ∨
        secondary.contrast_between error < 1/10 ∨
        tertiary.contrast_between error < 1/10 then
      generate_error_loop primary secondary tertiary hue_shift fuel
        { error with hue := error.hue - hue_shift }
    else
      some error

/-- Embeds `ColorSchemeBuilder::generate_error` (lines 1861-1871): starts
from hue 30 at the primary saturation and retries while the candidate
contrasts below 0.10 against any of primary, secondary and tertiary. -/
def ColorSchemeBuilder.generate_error (b : ColorSchemeBuilder)
    (secondary tertiary : ColorSource) (fuel : Nat) : Option ColorSource :=
  generate_error_loop b.primary secondary tertiary b.hue_shift fuel
    (ColorSource.new 30 b.primary.saturation)

/-- Embeds `ColorSchemeBuilder::generate_neutral` (lines 1873-1878). -/
def ColorSchemeBuilder.generate_neutral (b : ColorSchemeBuilder) : ColorSource :=
  { hue := b.primary.hue, saturation := clamp01 (1/100) }

/-- Embeds `ColorSchemeBuilder::generate_neutral_variant`
(lines 1880-1885). -/
def ColorSchemeBuilder.generate_neutral_variant (b : ColorSchemeBuilder) :
    ColorSource :=
  { hue := b.primary.hue, saturation := b.primary.saturation / 10 }

/-- Embeds the builder method `ColorSchemeBuilder::tertiary`
(lines 1897-1905), which converts the proto color with a fallback
saturation of a third of the primary's and assigns the result to the
`secondary` field (the method name and the assigned field disagree in the
source). -/
def ColorSchemeBuilder.set_tertiary (b : ColorSchemeBuilder)
    (tertiary : ProtoColor) : ColorSchemeBuilder :=
  { b with secondary := some (tertiary.into_source (b.primary.saturation / 3)) }

/-- Embeds `ColorSchemeBuilder::build` (lines 1939-1956), with the fuel of
the error-generation loop made explicit: the result is `none` exactly when
the error loop has not terminated within `fuel` iterations. -/
def ColorSchemeBuilder.build (b : ColorSchemeBuilder) (fuel : Nat) :
    Option ColorScheme :=
  let secondary := b.secondary.getD b.generate_secondary
  let tertiary := b.tertiary.getD (b.generate_tertiary secondary)
  let generated_error := match b.error with
    | some e => some e
    | none => b.generate_error secondary tertiary fuel
  generated_error.map fun error =>
    { primary := b.primary
      secondary := secondary
      tertiary := tertiary
      error := error
      neutral := b.neutral.getD b.generate_neutral
      neutral_variant := b.neutral_variant.getD b.generate_neutral_variant }

end Cushy

/-! # Theorems settling the claims -/

/-! ## Claim C1 -/

/-- C1: the claim states that `DimensionRange::from(d)` for a single
dimension `d` yields a range whose `exact_dimension()` is `Some(d)`, in
particular `Some(Px(7))` for `Px(7)`.  The code disagrees: `From<T>`
produces the `Included(d)..=Included(d)` encoding, while `exact_dimension`
only matches `Excluded(d)..Included(d)`, so the result is `None`.  This
theorem evaluates the embedded code at the claim's own example, `Px(7)`,
and additionally shows the result is `None` for every single-value range
built by `From<T>`. -/
theorem c1_exact_dimension_of_from_single :
    (Cushy.DimensionRange.fromSingle (Cushy.Dimension.px 7)).exact_dimension = none ∧
      ∀ d : Cushy.Dimension,
        (Cushy.DimensionRange.fromSingle d).exact_dimension = none := by
  refine ⟨rfl, ?_⟩
  intro d
  rfl

/-! ## Claim C8 -/

/-- C8: for every built-in component kind, injecting a value into the erased
`Component` and projecting back succeeds and returns the value unchanged
(first half, one conjunct per kind, including the `Px`/`Lp` sub-kind
conversions and boundary values such as the zero dimension since the
quantifiers are universal); and for every `Component` whose active variant
is not the kind's, the projection fails returning the original erased value
unchanged (second half). -/
theorem c8_component_round_trip_and_mismatch :
    ((∀ v : Cushy.Color, Cushy.Color.try_from (Cushy.Component.color v) = Except.ok v) ∧
     (∀ v : Cushy.Dimension,
       Cushy.Dimension.try_from (Cushy.Component.dimension v) = Except.ok v) ∧
     (∀ v : Int, Cushy.Px.try_from (Cushy.Px.into_component v) = Except.ok v) ∧
     (∀ v : Int, Cushy.Lp.try_from (Cushy.Lp.into_component v) = Except.ok v) ∧
     (∀ v : Cushy.DimensionRange,
       Cushy.DimensionRange.try_from (Cushy.Component.dimensionRange v) = Except.ok v) ∧
     (∀ v : ℚ, Cushy.Percent.try_from (Cushy.Component.percent v) = Except.ok v) ∧
     (∀ v : Cushy.EasingFunction,
       Cushy.EasingFunction.try_from (Cushy.Component.easing v) = Except.ok v) ∧
     (∀ v : Cushy.VisualOrder,
       Cushy.VisualOrder.try_from (Cushy.Component.visualOrder v) = Except.ok v) ∧
     (∀ v : Cushy.FocusableWidgets,
       Cushy.FocusableWidgets.try_from (Cushy.Component.focusableWidgets v) = Except.ok v) ∧
     (∀ v : Cushy.ContainerLevel,
       Cushy.ContainerLevel.try_from (Cushy.Component.containerLevel v) = Except.ok v) ∧
     (∀ v : Cushy.FamilyOwned,
       Cushy.FamilyOwned.try_from (Cushy.Component.fontFamily v) = Except.ok v) ∧
     (∀ v : Cushy.Weight, Cushy.Weight.try_from (Cushy.Component.fontWeight v) = Except.ok v) ∧
     (∀ v : Cushy.FontStyle,
       Cushy.FontStyle.try_from (Cushy.Component.fontStyle v) = Except.ok v)) ∧
    ((∀ c : Cushy.Component, (∀ v, c ≠ Cushy.Component.color v) →
       Cushy.Color.try_from c = Except.error c) ∧
     (∀ c : Cushy.Component, (∀ v, c ≠ Cushy.Component.dimension v) →
       Cushy.Dimension.try_from c = Except.error c) ∧
     (∀ c : Cushy.Component, (∀ v, c ≠ Cushy.Component.dimension (Cushy.Dimension.px v)) →
       Cushy.Px.try_from c = Except.error c) ∧
     (∀ c : Cushy.Component, (∀ v, c ≠ Cushy.Component.dimension (Cushy.Dimension.lp v)) →
       Cushy.Lp.try_from c = Except.error c) ∧
     (∀ c : Cushy.Component, (∀ v, c ≠ Cushy.Component.dimensionRange v) →
       Cushy.DimensionRange.try_from c = Except.error c) ∧
     (∀ c : Cushy.Component, (∀ v, c ≠ Cushy.Component.percent v) →
       Cushy.Percent.try_from c = Except.error c) ∧
     (∀ c : Cushy.Component, (∀ v, c ≠ Cushy.Component.easing v) →
       Cushy.EasingFunction.try_from c = Except.error c) ∧
     (∀ c : Cushy.Component, (∀ v, c ≠ Cushy.Component.visualOrder v) →
       Cushy.VisualOrder.try_from c = Except.error c) ∧
     (∀ c : Cushy.Component, (∀ v, c ≠ Cushy.Component.focusableWidgets v) →
       Cushy.FocusableWidgets.try_from c = Except.error c) ∧
     (∀ c : Cushy.Component, (∀ v, c ≠ Cushy.Component.containerLevel v) →
       Cushy.ContainerLevel.try_from c = Except.error c) ∧
     (∀ c : Cushy.Component, (∀ v, c ≠ Cushy.Component.fontFamily v) →
       Cushy.FamilyOwned.try_from c = Except.error c) ∧
     (∀ c : Cushy.Component, (∀ v, c ≠ Cushy.Component.fontWeight v) →
       Cushy.Weight.try_from c = Except.error c) ∧
     (∀ c : Cushy.Component, (∀ v, c ≠ Cushy.Component.fontStyle v) →
       Cushy.FontStyle.try_from c = Except.error c)) := by
  refine ⟨⟨fun _ => rfl, fun _ => rfl, fun _ => rfl, fun _ => rfl, fun _ => rfl, fun _ => rfl,
    fun _ => rfl, fun _ => rfl, fun _ => rfl, fun _ => rfl, fun _ => rfl, fun _ => rfl,
    fun _ => rfl⟩, ?_, ?_, ?_, ?_, ?_, ?_, ?_, ?_, ?_, ?_, ?_, ?_, ?_⟩
  all_goals
    intro c h
    cases c <;> first
      | exact absurd rfl (h _)
      | rfl
      | (rename_i d; cases d <;> first | exact absurd rfl (h _) | rfl)

/-- Witness for C8: evaluates a round trip at a concrete color, a round
trip at the zero dimension, and a variant mismatch at a concrete erased
value. -/
theorem c8_component_round_trip_witness :
    Cushy.Color.try_from (Cushy.Component.color ⟨1, 0, 0, 1⟩) = Except.ok ⟨1, 0, 0, 1⟩ ∧
    Cushy.Dimension.try_from (Cushy.Component.dimension (Cushy.Dimension.px 0)) =
      Except.ok (Cushy.Dimension.px 0) ∧
    Cushy.Color.try_from (Cushy.Component.dimension (Cushy.Dimension.px 0)) =
      Except.error (Cushy.Component.dimension (Cushy.Dimension.px 0)) :=
  ⟨c8_component_round_trip_and_mismatch.1.1 ⟨1, 0, 0, 1⟩,
   c8_component_round_trip_and_mismatch.1.2.1 (Cushy.Dimension.px 0),
   c8_component_round_trip_and_mismatch.2.1 (Cushy.Component.dimension (Cushy.Dimension.px 0))
     (fun _ h => Cushy.Component.noConfusion h)⟩

/-! ## Claim C6 -/

/-- C6: cloning a Styles registry isolates the clone from later mutations
through the original handle.  In the embedding, the handle `b` cloned after
`a.insert(n, v1)` is the registry value at that point; the theorem shows
`b.get_named(n)` still yields `v1` while the handle that performed the
second insert observes `v2`. -/
theorem c6_styles_clone_isolation (a : Cushy.Styles) (n : Cushy.ComponentName)
    (v1 v2 : Cushy.Component) :
    Cushy.Styles.get_named (Cushy.Styles.insert a n v1) n =
      some (Cushy.Value.constant v1) ∧
    Cushy.Styles.get_named (Cushy.Styles.insert (Cushy.Styles.insert a n v1) n v2) n =
      some (Cushy.Value.constant v2) := by
  constructor <;> simp [Cushy.Styles.insert, Cushy.Styles.insert_named, Cushy.Styles.get_named]

/-! ## Claim C7 -/

/-- C7: `Styles::get` on a registry with no entry for the descriptor's
name, or whose stored entry fails variant-checked conversion, returns the
descriptor's context-dependent default, registers no subscription (the
event list is empty), and never fails (the embedded `get` is a total
function). -/
theorem c7_get_falls_back_to_default {Ctx α : Type}
    (s : Cushy.Styles) (component : Cushy.ComponentDefinition Ctx α) (context : Ctx)
    (h : ∀ stored, Cushy.Styles.get_named s component.name = some stored →
      ∃ e, component.try_from_component stored.get = Except.error e) :
    Cushy.Styles.get s component context = (component.default_value context, []) := by
  unfold Cushy.Styles.get
  cases hl : Cushy.Styles.get_named s component.name with
  | none => rfl
  | some stored =>
    obtain ⟨e, he⟩ := h stored hl
    simp [he]

/-- Witness for C7: on the empty registry, resolving the concrete
color-valued property returns its default opaque black with no
subscription events. -/
theorem c7_get_falls_back_witness :
    Cushy.Styles.get Cushy.Styles.new Cushy.exampleColorDefinition () =
      ({ red := 0, green := 0, blue := 0, alpha := 1 }, []) :=
  c7_get_falls_back_to_default Cushy.Styles.new Cushy.exampleColorDefinition ()
    (fun _ hst => nomatch hst)

/-! ## Claim C2 -/

/-- C2: the claim states that `ColorSource::color` followed by
`Color::into_source_and_lightness` is a closed round trip.  The code
disagrees at the channel level, independently of the external Okhsl
arithmetic: `color` passes the converted sRGB channels to
`Color::new_f32(red, green, blue, alpha)` in the order
`(rgb.red, rgb.blue, rgb.green)`, so the sRGB triple read back by the
inverse has the green and blue channels swapped, and differs from the
forward conversion's output whenever those channels differ. -/
theorem c2_color_round_trip_swaps_channels
    (okhsl_to_srgb : Cushy.ColorSource → ℚ → Cushy.Srgb)
    (source : Cushy.ColorSource) (lightness : ℚ) :
    Cushy.Color.srgb_read_back
        (Cushy.ColorSource.color_channels okhsl_to_srgb source lightness) =
      { red := (okhsl_to_srgb source lightness).red,
        green := (okhsl_to_srgb source lightness).blue,
        blue := (okhsl_to_srgb source lightness).green } ∧
    ((okhsl_to_srgb source lightness).green ≠ (okhsl_to_srgb source lightness).blue →
      Cushy.Color.srgb_read_back
          (Cushy.ColorSource.color_channels okhsl_to_srgb source lightness) ≠
        okhsl_to_srgb source lightness) := by
  constructor
  · rfl
  · intro hne heq
    exact hne (Eq.symm (congrArg Cushy.Srgb.green heq))

/-- Witness for C2: with a concrete conversion output whose green and blue
channels differ, the triple read back by the inverse is not the forward
conversion's output. -/
theorem c2_color_round_trip_witness :
    Cushy.Color.srgb_read_back
        (Cushy.ColorSource.color_channels (fun _ _ => ⟨1, 1/2, 0⟩) ⟨90, 1⟩ (1/2)) ≠
      (⟨1, 1/2, 0⟩ : Cushy.Srgb) :=
  (c2_color_round_trip_swaps_channels (fun _ _ => ⟨1, 1/2, 0⟩) ⟨90, 1⟩ (1/2)).2
    (by norm_num)

/-! ## Claim C3 -/

/-- C3: the claim states that `contrast_between` is the average of the
saturation difference and the normalized shortest-arc hue distance.  The
code computes `saturation_delta.one_minus() * hue_delta` instead.  At two
sources with opposite hues, one fully saturated and the other fully
desaturated — the configuration the source's own doc comment calls perfect
contrast — the code yields 0 while the claimed average yields 1. -/
theorem c3_contrast_between_is_not_the_average :
    Cushy.ColorSource.contrast_between ⟨0, 1⟩ ⟨180, 0⟩ = 0 ∧
    Cushy.spec_contrast_between ⟨0, 1⟩ ⟨180, 0⟩ = 1 := by
  constructor
  · norm_num [Cushy.ColorSource.contrast_between, Cushy.into_positive_degrees,
      Cushy.difference_between, Cushy.one_minus, Cushy.clamp01]
  · norm_num [Cushy.spec_contrast_between, Cushy.into_positive_degrees,
      Cushy.difference_between]

/-! ## Claim C4 -/

/-- C4: the builder method `tertiary(t)` stores the converted proto color
in the `secondary` field and leaves the `tertiary` field `None`; on a
builder whose secondary was never set, any successful `build()` therefore
produces a scheme whose secondary is derived from `t` (with fallback
saturation a third of the primary's) and whose tertiary is the
auto-generated `generate_tertiary` color rather than `t`. -/
theorem c4_tertiary_method_sets_secondary_field (p t : Cushy.ProtoColor) (fuel : Nat) :
    ((Cushy.ColorSchemeBuilder.new p).set_tertiary t).secondary =
      some (t.into_source ((Cushy.ColorSchemeBuilder.new p).primary.saturation / 3)) ∧
    ((Cushy.ColorSchemeBuilder.new p).set_tertiary t).tertiary = none ∧
    ∀ scheme, ((Cushy.ColorSchemeBuilder.new p).set_tertiary t).build fuel = some scheme →
      scheme.secondary =
        t.into_source ((Cushy.ColorSchemeBuilder.new p).primary.saturation / 3) ∧
      scheme.tertiary =
        (Cushy.ColorSchemeBuilder.new p).generate_tertiary
          (t.into_source ((Cushy.ColorSchemeBuilder.new p).primary.saturation / 3)) := by
  refine ⟨rfl, rfl, ?_⟩
  intro scheme hbuild
  simp only [Cushy.ColorSchemeBuilder.build, Cushy.ColorSchemeBuilder.set_tertiary,
    Cushy.ColorSchemeBuilder.new, Option.getD_some, Option.getD_none,
    Option.map_eq_some'] at hbuild
  obtain ⟨e, hgen, hscheme⟩ := hbuild
  subst hscheme
  exact ⟨rfl, rfl⟩

/-- Witness for C4: a concrete builder whose only customization is
`tertiary(hue 90)` builds (with one loop iteration of fuel) a scheme whose
secondary is the converted proto color and whose tertiary is the
auto-generated color. -/
theorem c4_tertiary_method_witness :
    ((Cushy.ColorSchemeBuilder.new ⟨0, some (1/2)⟩).set_tertiary ⟨90, none⟩).build 1 =
      some { primary := ⟨0, 1/2⟩, secondary := ⟨90, 1/6⟩, tertiary := ⟨-30, 1/6⟩,
             error := ⟨30, 1/2⟩, neutral := ⟨0, 1/100⟩,
             neutral_variant := ⟨0, 1/20⟩ } ∧
    ({ primary := ⟨0, 1/2⟩, secondary := ⟨90, 1/6⟩, tertiary := ⟨-30, 1/6⟩,
       error := ⟨30, 1/2⟩, neutral := ⟨0, 1/100⟩,
       neutral_variant := ⟨0, 1/20⟩ } : Cushy.ColorScheme).secondary =
      Cushy.ProtoColor.into_source ⟨90, none⟩
        ((Cushy.ColorSchemeBuilder.new ⟨0, some (1/2)⟩).primary.saturation / 3) ∧
    ({ primary := ⟨0, 1/2⟩, secondary := ⟨90, 1/6⟩, tertiary := ⟨-30, 1/6⟩,
       error := ⟨30, 1/2⟩, neutral := ⟨0, 1/100⟩,
       neutral_variant := ⟨0, 1/20⟩ } : Cushy.ColorScheme).tertiary =
      (Cushy.ColorSchemeBuilder.new ⟨0, some (1/2)⟩).generate_tertiary
        (Cushy.ProtoColor.into_source ⟨90, none⟩
          ((Cushy.ColorSchemeBuilder.new ⟨0, some (1/2)⟩).primary.saturation / 3)) := by
  have hb : ((Cushy.ColorSchemeBuilder.new ⟨0, some (1/2)⟩).set_tertiary ⟨90, none⟩).build 1 =
      some { primary := ⟨0, 1/2⟩, secondary := ⟨90, 1/6⟩, tertiary := ⟨-30, 1/6⟩,
             error := ⟨30, 1/2⟩, neutral := ⟨0, 1/100⟩,
             neutral_variant := ⟨0, 1/20⟩ } := by
    norm_num [Cushy.ColorSchemeBuilder.new, Cushy.ColorSchemeBuilder.set_tertiary,
      Cushy.ColorSchemeBuilder.build, Cushy.ColorSchemeBuilder.generate_secondary,
      Cushy.ColorSchemeBuilder.generate_tertiary, Cushy.ColorSchemeBuilder.generate_error,
      Cushy.generate_error_loop, Cushy.ColorSchemeBuilder.generate_neutral,
      Cushy.ColorSchemeBuilder.generate_neutral_variant, Cushy.ProtoColor.into_source,
      Cushy.ColorSource.new, Cushy.ColorSource.contrast_between,
      Cushy.into_positive_degrees, Cushy.into_degrees, Cushy.signum_f32,
      Cushy.difference_between, Cushy.one_minus, Cushy.clamp01, abs_of_nonneg]
  exact ⟨hb, (c4_tertiary_method_sets_secondary_field ⟨0, some (1/2)⟩ ⟨90, none⟩ 1).2.2 _ hb⟩

/-! ## Claim C9, with shared contrast lemmas -/

/-- Symmetry of the embedded contrast metric: the saturation difference is
an absolute value and the two hue branches compute mirror-image
expressions. -/
theorem Cushy.ColorSource.contrast_between_comm (a b : Cushy.ColorSource) :
    Cushy.ColorSource.contrast_between a b = Cushy.ColorSource.contrast_between b a := by
  simp only [Cushy.ColorSource.contrast_between, Cushy.difference_between]
  rw [abs_sub_comm]
  rcases lt_trichotomy (Cushy.into_positive_degrees a.hue)
      (Cushy.into_positive_degrees b.hue) with h | h | h
  · rw [if_pos h, if_neg (not_lt.2 h.le)]
  · rw [h]
  · rw [if_neg (not_lt.2 h.le), if_pos h]

/-- Lower bound of the clamped unit-interval constructor. -/
theorem Cushy.clamp01_nonneg (x : ℚ) : 0 ≤ Cushy.clamp01 x :=
  le_max_left 0 (min 1 x)

/-- Upper bound of the clamped unit-interval constructor. -/
theorem Cushy.clamp01_le_one (x : ℚ) : Cushy.clamp01 x ≤ 1 :=
  max_le (by norm_num) (min_le_left 1 x)

/-- C9: the embedded contrast metric is symmetric, and for saturations in
the unit interval (the `ZeroToOne` invariant) its value lies in `[0, 1]`. -/
theorem c9_contrast_between_symmetric_and_bounded (a b : Cushy.ColorSource)
    (ha0 : 0 ≤ a.saturation) (ha1 : a.saturation ≤ 1)
    (hb0 : 0 ≤ b.saturation) (hb1 : b.saturation ≤ 1) :
    Cushy.ColorSource.contrast_between a b = Cushy.ColorSource.contrast_between b a ∧
    0 ≤ Cushy.ColorSource.contrast_between a b ∧
    Cushy.ColorSource.contrast_between a b ≤ 1 := by
  have hd1 : |a.saturation - b.saturation| ≤ 1 := by
    rw [abs_sub_le_iff]
    constructor <;> linarith
  have hd0 : 0 ≤ |a.saturation - b.saturation| := abs_nonneg _
  refine ⟨Cushy.ColorSource.contrast_between_comm a b, ?_, ?_⟩
  · simp only [Cushy.ColorSource.contrast_between, Cushy.one_minus,
      Cushy.difference_between]
    exact mul_nonneg (by linarith) (Cushy.clamp01_nonneg _)
  · simp only [Cushy.ColorSource.contrast_between, Cushy.one_minus,
      Cushy.difference_between]
    exact mul_le_one₀ (by linarith) (Cushy.clamp01_nonneg _) (Cushy.clamp01_le_one _)

/-- Witness for C9: symmetry and the bounds evaluated at two concrete
sources with in-range saturations. -/
theorem c9_contrast_between_witness :
    (0 : ℚ) ≤ 1/2 ∧ (1/2 : ℚ) ≤ 1 ∧ (0 : ℚ) ≤ 1/4 ∧ (1/4 : ℚ) ≤ 1 ∧
    (Cushy.ColorSource.contrast_between ⟨10, 1/2⟩ ⟨350, 1/4⟩ =
        Cushy.ColorSource.contrast_between ⟨350, 1/4⟩ ⟨10, 1/2⟩ ∧
      0 ≤ Cushy.ColorSource.contrast_between ⟨10, 1/2⟩ ⟨350, 1/4⟩ ∧
      Cushy.ColorSource.contrast_between ⟨10, 1/2⟩ ⟨350, 1/4⟩ ≤ 1) :=
  ⟨by norm_num, by norm_num, by norm_num, by norm_num,
    c9_contrast_between_symmetric_and_bounded ⟨10, 1/2⟩ ⟨350, 1/4⟩
      (by norm_num) (by norm_num) (by norm_num) (by norm_num)⟩

/-! ## Claim C10 -/

/-- Invariant of the `most_contrasting` selection loop: starting from
`best` with running amount `contrast best`, the returned element splits
the scanned list into a strict-greater prefix and a less-or-equal suffix,
so it is the first element attaining the maximum. -/
theorem Cushy.most_contrasting_loop_spec (contrast : Cushy.Color → ℚ) :
    ∀ (rest : List Cushy.Color) (best : Cushy.Color),
      ∃ l1 l2,
        best :: rest =
          l1 ++ Cushy.most_contrasting_loop contrast best (contrast best) rest :: l2 ∧
        (∀ x ∈ l1,
          contrast x <
            contrast (Cushy.most_contrasting_loop contrast best (contrast best) rest)) ∧
        (∀ x ∈ l2,
          contrast x ≤
            contrast (Cushy.most_contrasting_loop contrast best (contrast best) rest)) := by
  intro rest
  induction rest with
  | nil =>
    intro best
    exact ⟨[], [], rfl, by simp, by simp⟩
  | cons other rest ih =>
    intro best
    by_cases h : contrast other > contrast best
    · obtain ⟨l1, l2, hdec, h1, h2⟩ := ih other
      simp only [Cushy.most_contrasting_loop, if_pos h]
      refine ⟨best :: l1, l2, by simpa using hdec, ?_, h2⟩
      intro x hx
      have hole : contrast other ≤
          contrast (Cushy.most_contrasting_loop contrast other (contrast other) rest) := by
        cases l1 with
        | nil =>
          have hd := hdec
          rw [List.nil_append] at hd
          injection hd with hhead _
          exact le_of_eq (congrArg contrast hhead)
        | cons y t =>
          rw [List.cons_append] at hdec
          injection hdec with hhead _
          exact le_of_lt ((congrArg contrast hhead).trans_lt (h1 y (by simp)))
      rcases List.mem_cons.1 hx with rfl | hx
      · exact lt_of_lt_of_le h hole
      · exact h1 x hx
    · obtain ⟨l1, l2, hdec, h1, h2⟩ := ih best
      simp only [Cushy.most_contrasting_loop, if_neg h]
      cases l1 with
      | nil =>
        rw [List.nil_append] at hdec
        injection hdec with hhead htail
        refine ⟨[], other :: l2, ?_, by simp, ?_⟩
        · rw [List.nil_append, ← hhead, htail]
        · intro x hx
          rcases List.mem_cons.1 hx with rfl | hx
          · rw [← hhead]
            exact not_lt.1 h
          · exact h2 x hx
      | cons y t =>
        rw [List.cons_append] at hdec
        injection hdec with hhead htail
        refine ⟨best :: other :: t, l2, ?_, ?_, h2⟩
        · simp only [List.cons_append]
          exact congrArg (fun l => best :: other :: l) htail
        · intro x hx
          rcases List.mem_cons.1 hx with rfl | hx
          · have := h1 y (by simp)
            rw [← hhead] at this
            exact this
          · rcases List.mem_cons.1 hx with rfl | hx
            · have hb := h1 y (by simp)
              rw [← hhead] at hb
              exact lt_of_le_of_lt (not_lt.1 h) hb
            · exact h1 x (by simp [hx])

/-- C10: for every contrast assignment and non-empty candidate list,
`most_contrasting` returns the first candidate attaining the maximal
contrast (strict greater-than replacement keeps the first maximum on
ties); for the empty list the source's `expect` panic is modelled as
`none`. -/
theorem c10_most_contrasting_first_max (contrast : Cushy.Color → ℚ) :
    (∀ others : List Cushy.Color, others ≠ [] →
      ∃ c l1 l2,
        Cushy.Color.most_contrasting contrast others = some c ∧
        others = l1 ++ c :: l2 ∧
        (∀ x ∈ l1, contrast x < contrast c) ∧
        (∀ x ∈ l2, contrast x ≤ contrast c)) ∧
    Cushy.Color.most_contrasting contrast [] = none := by
  constructor
  · intro others hne
    cases others with
    | nil => exact absurd rfl hne
    | cons first rest =>
      obtain ⟨l1, l2, hdec, h1, h2⟩ := Cushy.most_contrasting_loop_spec contrast rest first
      exact ⟨_, l1, l2, rfl, hdec, h1, h2⟩
  · rfl

/-- Witness for C10: with the red channel as the contrast assignment and
two concrete candidates, the theorem applies to the non-empty list. -/
theorem c10_most_contrasting_witness :
    ([⟨0, 0, 0, 1⟩, ⟨1, 0, 0, 1⟩] : List Cushy.Color) ≠ [] ∧
    ∃ c l1 l2,
      Cushy.Color.most_contrasting (fun x => x.red) [⟨0, 0, 0, 1⟩, ⟨1, 0, 0, 1⟩] = some c ∧
      ([⟨0, 0, 0, 1⟩, ⟨1, 0, 0, 1⟩] : List Cushy.Color) = l1 ++ c :: l2 ∧
      (∀ x ∈ l1, x.red < c.red) ∧
      (∀ x ∈ l2, x.red ≤ c.red) :=
  ⟨List.cons_ne_nil _ _,
    (c10_most_contrasting_first_max (fun x => x.red)).1 _ (List.cons_ne_nil _ _)⟩

/-! ## Claim C5: angle-normalization lemmas -/

/-- Lower bound of the `[0, 360)` hue normalization. -/
theorem Cushy.into_positive_degrees_nonneg (x : ℚ) :
    0 ≤ Cushy.into_positive_degrees x := by
  simp only [Cushy.into_positive_degrees]
  have h := Int.floor_le (x / 360)
  linarith

/-- Upper bound of the `[0, 360)` hue normalization. -/
theorem Cushy.into_positive_degrees_lt (x : ℚ) :
    Cushy.into_positive_degrees x < 360 := by
  simp only [Cushy.into_positive_degrees]
  have h := Int.lt_floor_add_one (x / 360)
  linarith

/-- The hue normalization is invariant under adding integer multiples of a
full turn. -/
theorem Cushy.into_positive_degrees_add_int_mul (x : ℚ) (k : ℤ) :
    Cushy.into_positive_degrees (x + 360 * (k : ℚ)) =
      Cushy.into_positive_degrees x := by
  simp only [Cushy.into_positive_degrees]
  have hdiv : (x + 360 * (k : ℚ)) / 360 = x / 360 + (k : ℚ) := by ring
  rw [hdiv, Int.floor_add_int]
  push_cast
  ring

/-- The hue normalization fixes angles already in `[0, 360)`. -/
theorem Cushy.into_positive_degrees_eq_self (x : ℚ) (h0 : 0 ≤ x) (h1 : x < 360) :
    Cushy.into_positive_degrees x = x := by
  simp only [Cushy.into_positive_degrees]
  have hz : ⌊x / 360⌋ = 0 := by
    rw [Int.floor_eq_zero_iff, Set.mem_Ico]
    constructor
    · positivity
    · rw [div_lt_one (by norm_num)]
      exact h1
  rw [hz]
  norm_num

/-- The hue normalization shifts angles in `[-360, 0)` up by a full turn. -/
theorem Cushy.into_positive_degrees_neg_window (x : ℚ) (h0 : -360 ≤ x) (h1 : x < 0) :
    Cushy.into_positive_degrees x = x + 360 := by
  have h := Cushy.into_positive_degrees_add_int_mul x 1
  rw [Int.cast_one, mul_one] at h
  rw [← h]
  exact Cushy.into_positive_degrees_eq_self _ (by linarith) (by linarith)

/-- The branching shortest-arc computation inside `contrast_between` equals
the symmetric form over the normalized hue difference. -/
theorem Cushy.hue_dist_eq (x y : ℚ) :
    (if Cushy.into_positive_degrees x < Cushy.into_positive_degrees y then
        min (Cushy.into_positive_degrees y - Cushy.into_positive_degrees x)
          (Cushy.into_positive_degrees x + 360 - Cushy.into_positive_degrees y)
      else
        min (Cushy.into_positive_degrees x - Cushy.into_positive_degrees y)
          (Cushy.into_positive_degrees y + 360 - Cushy.into_positive_degrees x)) =
      min (Cushy.into_positive_degrees (x - y))
        (360 - Cushy.into_positive_degrees (x - y)) := by
  have h0x := Cushy.into_positive_degrees_nonneg x
  have h1x := Cushy.into_positive_degrees_lt x
  have h0y := Cushy.into_positive_degrees_nonneg y
  have h1y := Cushy.into_positive_degrees_lt y
  have key : x - y =
      (Cushy.into_positive_degrees x - Cushy.into_positive_degrees y) +
        360 * ((⌊x / 360⌋ - ⌊y / 360⌋ : ℤ) : ℚ) := by
    simp only [Cushy.into_positive_degrees]
    push_cast
    ring
  have e1 : Cushy.into_positive_degrees (x - y) =
      Cushy.into_positive_degrees
        (Cushy.into_positive_degrees x - Cushy.into_positive_degrees y) := by
    conv_lhs => rw [key]
    exact Cushy.into_positive_degrees_add_int_mul _ _
  by_cases h : Cushy.into_positive_degrees x < Cushy.into_positive_degrees y
  · rw [if_pos h, e1,
      Cushy.into_positive_degrees_neg_window
        (Cushy.into_positive_degrees x - Cushy.into_positive_degrees y)
        (by linarith) (by linarith), min_comm]
    ring_nf
  · rw [if_neg h, e1,
      Cushy.into_positive_degrees_eq_self
        (Cushy.into_positive_degrees x - Cushy.into_positive_degrees y)
        (by linarith [not_lt.1 h]) (by linarith)]
    ring_nf

/-- Numeric lower bound for the embedded contrast: a shortest-arc hue
distance of at least 135 degrees and a saturation difference of at most
two thirds force a contrast of at least one tenth. -/
theorem Cushy.contrast_between_ge (a b : Cushy.ColorSource)
    (hd : 135 ≤ min (Cushy.into_positive_degrees (a.hue - b.hue))
        (360 - Cushy.into_positive_degrees (a.hue - b.hue)))
    (hsat : |a.saturation - b.saturation| ≤ 2/3) :
    1/10 ≤ Cushy.ColorSource.contrast_between a b := by
  simp only [Cushy.ColorSource.contrast_between, Cushy.difference_between, Cushy.one_minus]
  rw [Cushy.hue_dist_eq a.hue b.hue]
  have h0 := Cushy.into_positive_degrees_nonneg (a.hue - b.hue)
  have h1 := Cushy.into_positive_degrees_lt (a.hue - b.hue)
  have hd180 : min (Cushy.into_positive_degrees (a.hue - b.hue))
      (360 - Cushy.into_positive_degrees (a.hue - b.hue)) ≤ 180 := by
    rcases le_total (Cushy.into_positive_degrees (a.hue - b.hue)) 180 with hx | hx
    · exact le_trans (min_le_left _ _) hx
    · exact le_trans (min_le_right _ _) (by linarith)
  have hcl : Cushy.clamp01 (min (Cushy.into_positive_degrees (a.hue - b.hue))
      (360 - Cushy.into_positive_degrees (a.hue - b.hue)) / 180) =
      min (Cushy.into_positive_degrees (a.hue - b.hue))
        (360 - Cushy.into_positive_degrees (a.hue - b.hue)) / 180 := by
    unfold Cushy.clamp01
    rw [min_eq_right (by linarith), max_eq_right (by linarith)]
  rw [hcl]
  have habs := abs_nonneg (a.saturation - b.saturation)
  have f1 : (1:ℚ)/3 ≤ 1 - |a.saturation - b.saturation| := by linarith
  have f2 : (3:ℚ)/4 ≤ min (Cushy.into_positive_degrees (a.hue - b.hue))
      (360 - Cushy.into_positive_degrees (a.hue - b.hue)) / 180 := by linarith
  have := mul_le_mul f1 f2 (by norm_num) (by linarith)
  linarith

/-- Termination of the error-generation retry loop: if some candidate
reached within the fuel budget passes all three contrast checks, the loop
exits with a candidate passing all three checks. -/
theorem Cushy.generate_error_loop_exits (p sec ter : Cushy.ColorSource) (shift : ℚ) :
    ∀ (fuel : Nat) (e : Cushy.ColorSource),
      (∃ k : Nat, k < fuel ∧
        ¬(Cushy.ColorSource.contrast_between p
              ⟨e.hue - shift * (k:ℚ), e.saturation⟩ < 1/10 ∨
          Cushy.ColorSource.contrast_between sec
              ⟨e.hue - shift * (k:ℚ), e.saturation⟩ < 1/10 ∨
          Cushy.ColorSource.contrast_between ter
              ⟨e.hue - shift * (k:ℚ), e.saturation⟩ < 1/10)) →
      ∃ e', Cushy.generate_error_loop p sec ter shift fuel e = some e' ∧
        ¬(Cushy.ColorSource.contrast_between p e' < 1/10 ∨
          Cushy.ColorSource.contrast_between sec e' < 1/10 ∨
          Cushy.ColorSource.contrast_between ter e' < 1/10) := by
  intro fuel
  induction fuel with
  | zero =>
    intro e hex
    obtain ⟨k, hk, _⟩ := hex
    exact absurd hk (Nat.not_lt_zero k)
  | succ fuel ih =>
    intro e hex
    obtain ⟨k, hk, hgood⟩ := hex
    by_cases hg : Cushy.ColorSource.contrast_between p e < 1/10 ∨
        Cushy.ColorSource.contrast_between sec e < 1/10 ∨
        Cushy.ColorSource.contrast_between ter e < 1/10
    · cases k with
      | zero =>
        exfalso
        apply hgood
        have he : (⟨e.hue - shift * ((0:ℕ):ℚ), e.saturation⟩ : Cushy.ColorSource) = e := by
          have hz : shift * ((0:ℕ):ℚ) = 0 := by norm_num
          rw [hz, sub_zero]
        rw [he]
        exact hg
      | succ j =>
        have hrec : Cushy.generate_error_loop p sec ter shift (fuel + 1) e =
            Cushy.generate_error_loop p sec ter shift fuel
              ⟨e.hue - shift, e.saturation⟩ := by
          simp only [Cushy.generate_error_loop, if_pos hg]
        rw [hrec]
        apply ih
        refine ⟨j, Nat.lt_of_succ_lt_succ hk, ?_⟩
        show ¬(Cushy.ColorSource.contrast_between p
              ⟨e.hue - shift - shift * (j:ℚ), e.saturation⟩ < 1/10 ∨
          Cushy.ColorSource.contrast_between sec
              ⟨e.hue - shift - shift * (j:ℚ), e.saturation⟩ < 1/10 ∨
          Cushy.ColorSource.contrast_between ter
              ⟨e.hue - shift - shift * (j:ℚ), e.saturation⟩ < 1/10)
        have harg : e.hue - shift - shift * (j:ℚ) = e.hue - shift * (((j+1):ℕ):ℚ) := by
          push_cast
          ring
        rw [harg]
        exact hgood
    · exact ⟨e, by simp only [Cushy.generate_error_loop, if_neg hg], hg⟩

/-- Existence of a low-contrast-safe error candidate within the first
twelve candidates of the default builder: choosing the multiple of 30
nearest the antipode of the primary hue keeps all three shortest-arc
distances at least 135 degrees. -/
theorem Cushy.good_error_candidate_exists (h s : ℚ) (hs0 : 0 ≤ s) (hs1 : s ≤ 1) :
    ∃ k : Nat, k < 12 ∧
      ¬(Cushy.ColorSource.contrast_between ⟨h, s⟩
            ⟨30 - 30 * (k:ℚ), s⟩ < 1/10 ∨
        Cushy.ColorSource.contrast_between ⟨h + 30, s/2⟩
            ⟨30 - 30 * (k:ℚ), s⟩ < 1/10 ∨
        Cushy.ColorSource.contrast_between ⟨h - 30, s/3⟩
            ⟨30 - 30 * (k:ℚ), s⟩ < 1/10) := by
  set n : ℤ := ⌈(h + 165) / 30⌉ with hn
  have hk0 : 0 ≤ (1 - n) % 12 := Int.emod_nonneg _ (by norm_num)
  have hk12 : (1 - n) % 12 < 12 := Int.emod_lt_of_pos _ (by norm_num)
  refine ⟨((1 - n) % 12).toNat, by omega, ?_⟩
  have hkq : ((((1 - n) % 12).toNat : ℕ) : ℤ) = (1 - n) % 12 := Int.toNat_of_nonneg hk0
  have hz : ((((1 - n) % 12).toNat : ℕ) : ℤ) = 1 - n - 12 * ((1 - n) / 12) := by omega
  have hcast : (30 : ℚ) - 30 * ((((1 - n) % 12).toNat : ℕ) : ℚ) =
      30 * (n:ℚ) + 360 * (((1 - n) / 12 : ℤ) : ℚ) := by
    have hzq : ((((1 - n) % 12).toNat : ℕ) : ℚ) =
        1 - (n:ℚ) - 12 * (((1 - n) / 12 : ℤ) : ℚ) := by
      exact_mod_cast congrArg (fun z : ℤ => (z : ℚ)) hz
    rw [hzq]
    ring
  have hm1 : h + 165 ≤ 30 * (n:ℚ) := by
    have hle := Int.le_ceil ((h + 165) / 30)
    rw [← hn] at hle
    linarith
  have hm2 : 30 * (n:ℚ) < h + 195 := by
    have hlt := Int.ceil_lt_add_one ((h + 165) / 30)
    rw [← hn] at hlt
    linarith
  have hper1 : Cushy.into_positive_degrees
      (h - (30 - 30 * ((((1 - n) % 12).toNat : ℕ) : ℚ))) = h - 30 * (n:ℚ) + 360 := by
    have harg : h - (30 - 30 * ((((1 - n) % 12).toNat : ℕ) : ℚ)) =
        (h - 30 * (n:ℚ)) + 360 * (((-((1 - n) / 12)) : ℤ) : ℚ) := by
      rw [hcast]
      push_cast
      ring
    rw [harg, Cushy.into_positive_degrees_add_int_mul]
    exact Cushy.into_positive_degrees_neg_window _ (by linarith) (by linarith)
  have hper2 : Cushy.into_positive_degrees
      (h + 30 - (30 - 30 * ((((1 - n) % 12).toNat : ℕ) : ℚ))) =
      h - 30 * (n:ℚ) + 390 := by
    have harg : h + 30 - (30 - 30 * ((((1 - n) % 12).toNat : ℕ) : ℚ)) =
        (h - 30 * (n:ℚ) + 30) + 360 * (((-((1 - n) / 12)) : ℤ) : ℚ) := by
      rw [hcast]
      push_cast
      ring
    rw [harg, Cushy.into_positive_degrees_add_int_mul]
    have := Cushy.into_positive_degrees_neg_window (h - 30 * (n:ℚ) + 30)
      (by linarith) (by linarith)
    rw [this]
    ring
  have hper3 : Cushy.into_positive_degrees
      (h - 30 - (30 - 30 * ((((1 - n) % 12).toNat : ℕ) : ℚ))) =
      h - 30 * (n:ℚ) + 330 := by
    have harg : h - 30 - (30 - 30 * ((((1 - n) % 12).toNat : ℕ) : ℚ)) =
        (h - 30 * (n:ℚ) - 30) + 360 * (((-((1 - n) / 12)) : ℤ) : ℚ) := by
      rw [hcast]
      push_cast
      ring
    rw [harg, Cushy.into_positive_degrees_add_int_mul]
    have := Cushy.into_positive_degrees_neg_window (h - 30 * (n:ℚ) - 30)
      (by linarith) (by linarith)
    rw [this]
    ring
  rw [not_or, not_or]
  refine ⟨not_lt.2 ?_, not_lt.2 ?_, not_lt.2 ?_⟩
  · apply Cushy.contrast_between_ge
    · show 135 ≤ min (Cushy.into_positive_degrees
          (h - (30 - 30 * ((((1 - n) % 12).toNat : ℕ) : ℚ))))
        (360 - Cushy.into_positive_degrees
          (h - (30 - 30 * ((((1 - n) % 12).toNat : ℕ) : ℚ))))
      rw [hper1]
      refine le_min (by linarith) (by linarith)
    · show |s - s| ≤ 2/3
      rw [sub_self, abs_zero]
      norm_num
  · apply Cushy.contrast_between_ge
    · show 135 ≤ min (Cushy.into_positive_degrees
          (h + 30 - (30 - 30 * ((((1 - n) % 12).toNat : ℕ) : ℚ))))
        (360 - Cushy.into_positive_degrees
          (h + 30 - (30 - 30 * ((((1 - n) % 12).toNat : ℕ) : ℚ))))
      rw [hper2]
      refine le_min (by linarith) (by linarith)
    · show |s/2 - s| ≤ 2/3
      rw [abs_le]
      constructor <;> linarith
  · apply Cushy.contrast_between_ge
    · show 135 ≤ min (Cushy.into_positive_degrees
          (h - 30 - (30 - 30 * ((((1 - n) % 12).toNat : ℕ) : ℚ))))
        (360 - Cushy.into_positive_degrees
          (h - 30 - (30 - 30 * ((((1 - n) % 12).toNat : ℕ) : ℚ))))
      rw [hper3]
      refine le_min (by linarith) (by linarith)
    · show |s/3 - s| ≤ 2/3
      rw [abs_le]
      constructor <;> linarith

/-- C5: for every primary color (any hue, any saturation satisfying the
unit-interval invariant), `ColorSchemeBuilder::new(primary).build()`
terminates — twelve iterations of fuel always suffice for the
error-generation loop — and yields a fully populated scheme (all six
fields are the generated sources) whose error color has contrast at least
0.10 against the primary, secondary and tertiary colors. -/
theorem c5_build_terminates_with_contrasting_error (h s : ℚ)
    (hs0 : 0 ≤ s) (hs1 : s ≤ 1) :
    ∃ scheme : Cushy.ColorScheme,
      (Cushy.ColorSchemeBuilder.new ⟨h, some s⟩).build 12 = some scheme ∧
      scheme.primary = ⟨h, s⟩ ∧
      scheme.secondary = ⟨h + 30, s / 2⟩ ∧
      scheme.tertiary = ⟨h - 30, s / 3⟩ ∧
      scheme.neutral = ⟨h, 1/100⟩ ∧
      scheme.neutral_variant = ⟨h, s / 10⟩ ∧
      1/10 ≤ Cushy.ColorSource.contrast_between scheme.error scheme.primary ∧
      1/10 ≤ Cushy.ColorSource.contrast_between scheme.error scheme.secondary ∧
      1/10 ≤ Cushy.ColorSource.contrast_between scheme.error scheme.tertiary := by
  have hter : (Cushy.ColorSchemeBuilder.new ⟨h, some s⟩).generate_tertiary
      ⟨h + 30, s / 2⟩ = ⟨h - 30, s / 3⟩ := by
    show (⟨h - Cushy.signum_f32 (Cushy.into_degrees (h + 30 - h)) *
        Cushy.into_degrees 30, s / 3⟩ : Cushy.ColorSource) = ⟨h - 30, s / 3⟩
    have e30 : h + 30 - h = (30:ℚ) := by ring
    rw [e30]
    have hdeg : Cushy.into_degrees (30:ℚ) = 30 := by
      norm_num [Cushy.into_degrees]
    rw [hdeg]
    have hsig : Cushy.signum_f32 (30:ℚ) = 1 := by norm_num [Cushy.signum_f32]
    rw [hsig, one_mul]
  have hneutral : Cushy.clamp01 (1/100) = (1/100 : ℚ) := by
    norm_num [Cushy.clamp01]
  obtain ⟨k, hk12, hgood⟩ := Cushy.good_error_candidate_exists h s hs0 hs1
  obtain ⟨e', hloop, hgood'⟩ :=
    Cushy.generate_error_loop_exits ⟨h, s⟩ ⟨h + 30, s / 2⟩ ⟨h - 30, s / 3⟩ 30 12 ⟨30, s⟩
      ⟨k, hk12, by exact hgood⟩
  rw [not_or, not_or] at hgood'
  obtain ⟨hg1, hg2, hg3⟩ := hgood'
  refine ⟨⟨⟨h, s⟩, ⟨h + 30, s / 2⟩, ⟨h - 30, s / 3⟩, e', ⟨h, 1/100⟩, ⟨h, s / 10⟩⟩,
    ?_, rfl, rfl, rfl, rfl, rfl, ?_, ?_, ?_⟩
  · show Option.map (fun error =>
        ({ primary := ⟨h, s⟩, secondary := ⟨h + 30, s / 2⟩,
           tertiary := (Cushy.ColorSchemeBuilder.new ⟨h, some s⟩).generate_tertiary
             ⟨h + 30, s / 2⟩,
           error := error, neutral := ⟨h, Cushy.clamp01 (1/100)⟩,
           neutral_variant := ⟨h, s / 10⟩ } : Cushy.ColorScheme))
      (Cushy.generate_error_loop ⟨h, s⟩ ⟨h + 30, s / 2⟩
        ((Cushy.ColorSchemeBuilder.new ⟨h, some s⟩).generate_tertiary ⟨h + 30, s / 2⟩)
        30 12 ⟨30, s⟩) =
      some ⟨⟨h, s⟩, ⟨h + 30, s / 2⟩, ⟨h - 30, s / 3⟩, e', ⟨h, 1/100⟩, ⟨h, s / 10⟩⟩
    rw [hter, hneutral, hloop]
    rfl
  · show 1/10 ≤ Cushy.ColorSource.contrast_between e' ⟨h, s⟩
    rw [Cushy.ColorSource.contrast_between_comm]
    exact not_lt.1 hg1
  · show 1/10 ≤ Cushy.ColorSource.contrast_between e' ⟨h + 30, s / 2⟩
    rw [Cushy.ColorSource.contrast_between_comm]
    exact not_lt.1 hg2
  · show 1/10 ≤ Cushy.ColorSource.contrast_between e' ⟨h - 30, s / 3⟩
    rw [Cushy.ColorSource.contrast_between_comm]
    exact not_lt.1 hg3

/-- Witness for C5: the default scheme seed (hue 0 with saturation 0.8)
satisfies the saturation hypotheses and the theorem applies to it. -/
theorem c5_build_terminates_witness :
    (0 : ℚ) ≤ 4/5 ∧ (4/5 : ℚ) ≤ 1 ∧
    ∃ scheme : Cushy.ColorScheme,
      (Cushy.ColorSchemeBuilder.new ⟨0, some (4/5)⟩).build 12 = some scheme ∧
      scheme.primary = ⟨0, 4/5⟩ ∧
      scheme.secondary = ⟨0 + 30, 4/5 / 2⟩ ∧
      scheme.tertiary = ⟨0 - 30, 4/5 / 3⟩ ∧
      scheme.neutral = ⟨0, 1/100⟩ ∧
      scheme.neutral_variant = ⟨0, 4/5 / 10⟩ ∧
      1/10 ≤ Cushy.ColorSource.contrast_between scheme.error scheme.primary ∧
      1/10 ≤ Cushy.ColorSource.contrast_between scheme.error scheme.secondary ∧
      1/10 ≤ Cushy.ColorSource.contrast_between scheme.error scheme.tertiary :=
  ⟨by norm_num, by norm_num,
    c5_build_terminates_with_contrasting_error 0 (4/5) (by norm_num) (by norm_num)⟩
